import Mathlib

/-!
Shallow embedding of the avalanche-canada-data-analysis repository
(scraper in `src/scripts/helper.py` / `src/scripts/scrape_export_data.py`,
cleaning and forecast-anomaly computation in
`src/notebooks/2020_10_10_dh_clean_explore_data.py`), together with
theorems settling the specification claims about it.

Modelling conventions:
* Calendar dates are a `(year, month, day)` structure; `pd.to_datetime`
  plus `pd.Timedelta('1 days')` plus `strftime` is Gregorian successor.
* A Python exception (`ValueError` from `int`, `IndexError` from list
  subscripts, `ZeroDivisionError` from `/`) is `Option.none`.
* A pandas `NaN` cell is `Option.none`; dataframes are lists of rows.
* Python `float` division is modelled exactly over `ℚ`.
-/

namespace AvyCan

/-- A Gregorian calendar date, modelling the `'%Y-%m-%d'` date strings
that flow through the scraper. -/
structure CalDate where
  year : Nat
  month : Nat
  day : Nat
deriving DecidableEq, Repr

/-- Gregorian leap-year test (what `pandas` implements for its datetime
arithmetic). -/
def isLeap (y : Nat) : Bool :=
  (y % 4 == 0 && y % 100 != 0) || y % 400 == 0

/-- Number of days in month `m` of year `y`. -/
def daysInMonth (y m : Nat) : Nat :=
  if m == 2 then (if isLeap y then 29 else 28)
  else if m == 4 || m == 6 || m == 9 || m == 11 then 30
  else 31

/-- `pd.to_datetime(date) + pd.Timedelta('1 days')`, on valid dates
(helper.py lines 30-31). -/
def nextDay (d : CalDate) : CalDate :=
  if d.day < daysInMonth d.year d.month then ⟨d.year, d.month, d.day + 1⟩
  else if d.month < 12 then ⟨d.year, d.month + 1, 1⟩
  else ⟨d.year + 1, 1, 1⟩

/-- The text contents of the five element lists that
`driver.find_elements_by_xpath` returns for one archive page
(helper.py lines 34-45, after the `.text` extraction of lines 55-59).
An empty list models an absent page element. -/
structure Page where
  alpine : List String
  treeline : List String
  belowtree : List String
  forecast : List String
  problem : List String
deriving DecidableEq, Repr

/-- One cell of an emitted row: the scraped rows mix a date, status
label strings and integer status codes (helper.py lines 62-74). -/
inductive Entry where
  | date (d : CalDate)
  | str (s : String)
  | int (n : Int)
deriving DecidableEq, Repr

/-- A scraped row, e.g. `['2019-12-01', 'Low', 1, 'Low', 1, 'Low', 1]`. -/
abbrev Row := List Entry

/-- Python `s.split(' - ')`, specialised to the separator `' - '` the
scraper always uses (helper.py lines 62-74): leftmost, non-overlapping
occurrences of the separator cut the character list; an input without
the separator yields a single chunk, and the empty input yields `[[]]`,
exactly as `str.split` never returns an empty list. -/
def splitDash : List Char → List (List Char)
  | ' ' :: '-' :: ' ' :: rest => [] :: splitDash rest
  | c :: rest =>
      match splitDash rest with
      | [] => [[c]]
      | p :: ps => (c :: p) :: ps
  | [] => [[]]

/-- Accumulating decimal parse of a digit run; `none` on the first
non-digit character. -/
def natOfDigits (acc : Nat) : List Char → Option Nat
  | [] => some acc
  | c :: cs => if c.isDigit then natOfDigits (acc * 10 + (c.toNat - 48)) cs else none

/-- Python `int(s)` on a character list: an optional sign followed by at
least one decimal digit; anything else raises `ValueError` (`none`).
(Python also tolerates surrounding whitespace and underscores, which
never occur in the scraped texts.) -/
def pyInt : List Char → Option Int
  | [] => none
  | '-' :: cs => if cs.isEmpty then none else (natOfDigits 0 cs).map (fun n => -(n : Int))
  | '+' :: cs => if cs.isEmpty then none else (natOfDigits 0 cs).map (fun n => (n : Int))
  | cs => (natOfDigits 0 cs).map (fun n => (n : Int))

/-- `condition.split(' - ')[-1]` — the text kept as the status label
(helper.py lines 62-74). `splitDash` never returns an empty list, so
the `getLastD` default is never used. -/
def statusLabel (s : String) : String :=
  String.mk ((splitDash s.data).getLastD [])

/-- `int(condition.split(' - ')[0])` — the integer status code
(helper.py lines 62-74). -/
def statusCode (s : String) : Option Int :=
  pyInt ((splitDash s.data).headD [])

/-- The `current_conditions` row built from a date and the three band
texts (helper.py lines 62-64): `none` when any `int` conversion raises. -/
def currentRow (d : CalDate) (alp tre bel : String) : Option Row := do
  let ca ← statusCode alp
  let ct ← statusCode tre
  let cb ← statusCode bel
  pure [.date d, .str (statusLabel alp), .int ca,
        .str (statusLabel tre), .int ct,
        .str (statusLabel bel), .int cb]

/-- A forecast row built from three texts of the forecast block
(helper.py lines 66-74 build the `+1` row from `future_conditions[0..2]`
and the `+2` row from `future_conditions[3..5]`). -/
def futureRow (d : CalDate) (s0 s1 s2 : String) : Option Row := do
  let c0 ← statusCode s0
  let c1 ← statusCode s1
  let c2 ← statusCode s2
  pure [.date d, .str (statusLabel s0), .int c0,
        .str (statusLabel s1), .int c1,
        .str (statusLabel s2), .int c2]

/-- `not alpine_element or not treeline_element or not belowtree_element
or not forecast_element` (helper.py line 48). -/
def missingElements (pg : Page) : Bool :=
  pg.alpine.isEmpty || pg.treeline.isEmpty || pg.belowtree.isEmpty || pg.forecast.isEmpty

/-- The body of the scrape loop for one date (helper.py lines 28-80):
either the three placeholder rows plus an empty problem list (lines
48-52), or the parsed rows (lines 53-76). `List.get?` models Python
list subscripting (`future_conditions[k]` raises `IndexError` when the
forecast block has fewer than six values). -/
def scrapeStep (pg : Page) (d : CalDate) :
    Option (Row × Row × Row × List String) :=
  if missingElements pg then
    some ([.date d], [.date (nextDay d)], [.date (nextDay (nextDay d))], [])
  else do
    let cur ← currentRow d (pg.alpine.headD "") (pg.treeline.headD "") (pg.belowtree.headD "")
    let f0 ← pg.forecast.get? 0
    let f1 ← pg.forecast.get? 1
    let f2 ← pg.forecast.get? 2
    let f3 ← pg.forecast.get? 3
    let f4 ← pg.forecast.get? 4
    let f5 ← pg.forecast.get? 5
    let p1 ← futureRow (nextDay d) f0 f1 f2
    let p2 ← futureRow (nextDay (nextDay d)) f3 f4 f5
    pure (cur, p1, p2, pg.problem)

/-- The scrape loop over all dates (helper.py lines 28-80), accumulating
the four parallel output lists. `fetch` models what the driver finds on
the archive page of each date. Any uncaught exception inside the loop
aborts the whole run (`none`). -/
def scrapeLists (fetch : CalDate → Page) :
    List CalDate → Option (List Row × List Row × List Row × List (List String))
  | [] => some ([], [], [], [])
  | d :: rest => do
      let (r0, r1, r2, pr) ← scrapeStep (fetch d) d
      let (l0, l1, l2, lp) ← scrapeLists fetch rest
      pure (r0 :: l0, r1 :: l1, r2 :: l2, pr :: lp)

/-- Outcome of a whole `scrape` call: the returned lists (or `none` when
an exception escaped) and whether `driver.quit()` was reached. -/
structure RunOutcome where
  result : Option (List Row × List Row × List Row × List (List String))
  driverReleased : Bool
deriving DecidableEq, Repr

/-- `scrape(dates, region)` (helper.py lines 12-84): the Firefox driver
is acquired first (line 23); `driver.get(base_url.format(region, dates[0]))`
(line 24) raises `IndexError` on an empty date list before the loop; the
loop runs; `driver.quit()` (line 82) executes only when no exception was
raised, since no `try`/`finally` protects it. -/
def scrapeRun (fetch : CalDate → Page) (dates : List CalDate) : RunOutcome :=
  match dates with
  | [] => ⟨none, false⟩
  | _ :: _ =>
      match scrapeLists fetch dates with
      | some r => ⟨some r, true⟩
      | none => ⟨none, false⟩

/-! ### Date-range filter of `src/scripts/scrape_export_data.py` -/

/-- `months_to_scrape = [1, 2, 3, 4, 11, 12]`
(scrape_export_data.py line 19). -/
def months_to_scrape : List Nat := [1, 2, 3, 4, 11, 12]

/-- `dates_to_scrape[dates_to_scrape.month.isin(months_to_scrape)]`
(scrape_export_data.py line 20). The argument is the day-by-day
inclusive range that `pd.date_range(start_date, end_date)` produced
(line 18), kept abstract as a list of dates. -/
def dates_to_scrape (dateRange : List CalDate) : List CalDate :=
  dateRange.filter (fun d => months_to_scrape.contains d.month)

/-! ### Cleaning step of the notebook (cell In[22], lines 100-108) -/

/-- One row of a raw scraped table as the notebook loads it; a `none`
field is a pandas `NaN` cell (a placeholder row, which carries only the
date, has `none` in every other column). -/
structure RawRow where
  date_valid : CalDate
  alpine_status : Option String
  alpine_status_code : Option Nat
  treeline_status : Option String
  treeline_status_code : Option Nat
  belowtree_status : Option String
  belowtree_status_code : Option Nat
  problems : Option String
deriving DecidableEq, Repr

/-- `df.replace(0.0, np.nan)` on one numeric cell
(notebook line 101): the value `0` becomes `NaN`. -/
def replaceZero : Option Nat → Option Nat
  | some 0 => none
  | c => c

/-- `df.replace(0.0, np.nan, inplace=True)` (notebook line 101) applied
to a row: the replacement only affects the numeric status-code columns,
since the status-label and problem columns hold text. -/
def replaceZeroRow (r : RawRow) : RawRow :=
  ⟨r.date_valid, r.alpine_status, replaceZero r.alpine_status_code,
   r.treeline_status, replaceZero r.treeline_status_code,
   r.belowtree_status, replaceZero r.belowtree_status_code, r.problems⟩

/-- The row-retention test of `df.dropna(subset=['alpine_status_code',
'treeline_status_code', 'belowtree_status_code'])` (notebook line 102). -/
def hasAllCodes (r : RawRow) : Bool :=
  r.alpine_status_code.isSome && r.treeline_status_code.isSome &&
    r.belowtree_status_code.isSome

/-- The cleaning filter applied to each of the three tables (notebook
lines 100-102): replace `0` by `NaN`, then drop every row with a `NaN`
status code. -/
def cleanFilter (t : List RawRow) : List RawRow :=
  (t.map replaceZeroRow).filter hasAllCodes

/-- `df_raw_current['problems'].replace(np.nan, 'No Text')` on one row
(notebook line 108). -/
def fillProblems (r : RawRow) : RawRow :=
  ⟨r.date_valid, r.alpine_status, r.alpine_status_code,
   r.treeline_status, r.treeline_status_code,
   r.belowtree_status, r.belowtree_status_code,
   some (r.problems.getD "No Text")⟩

/-- The full cleaning of the day-of table (notebook lines 100-108):
the filter of lines 100-102 followed by the problem-text fill of
line 108. (The `Unnamed: 8` column drop of line 105 removes a column
that the row model does not carry.) -/
def cleanCurrent (t : List RawRow) : List RawRow :=
  (cleanFilter t).map fillProblems

/-! ### Forecast-anomaly computation of the notebook (cell In[152]) -/

/-- One row of `df_now_plus1` / `df_now_plus2`, the inner merge of the
cleaned day-of table with a cleaned forecast table on `date_valid`
(notebook lines 371-372): the `_x` columns come from the left (day-of,
i.e. reported) table and the `_y` columns from the right (forecast)
table. -/
structure MergedRow where
  alpine_status_code_x : Nat
  treeline_status_code_x : Nat
  belowtree_status_code_x : Nat
  alpine_status_code_y : Nat
  treeline_status_code_y : Nat
  belowtree_status_code_y : Nat
deriving DecidableEq, Repr

/-- The three elevation bands. -/
inductive Band where
  | alpine
  | treeline
  | belowtree
deriving DecidableEq, Repr

/-- The `_x` (day-of / reported) status-code column of a band. -/
def bandX : Band → MergedRow → Nat
  | .alpine => MergedRow.alpine_status_code_x
  | .treeline => MergedRow.treeline_status_code_x
  | .belowtree => MergedRow.belowtree_status_code_x

/-- The `_y` (forecast) status-code column of a band. -/
def bandY : Band → MergedRow → Nat
  | .alpine => MergedRow.alpine_status_code_y
  | .treeline => MergedRow.treeline_status_code_y
  | .belowtree => MergedRow.belowtree_status_code_y

/-- The two forecast horizons: tables `df_now_plus1` and `df_now_plus2`. -/
inductive Horizon where
  | plus1
  | plus2
deriving DecidableEq, Repr

/-- Which band/horizon pairs guard the loop body with `if i == 5: tmp = 0`:
`alp_tmp_2` (line 392), `treeline_tmp_2` (line 401) and both
`belowtree_tmp_1` and `belowtree_tmp_2` (lines 409-411); `alp_tmp_1`
and `treeline_tmp_1` are never guarded. -/
def hardZero : Band → Horizon → Bool
  | .alpine, .plus1 => false
  | .alpine, .plus2 => true
  | .treeline, .plus1 => false
  | .treeline, .plus2 => true
  | .belowtree, _ => true

/-- `len(df[pred])`: the number of rows of a merged table satisfying a
boolean row predicate. -/
def countRows (t : List MergedRow) (p : MergedRow → Bool) : Nat :=
  (t.filter p).length

/-- The value `tmp` computed for loop indices `i`, `j` in one band and
horizon (notebook lines 388-414): `tmp = len(df[(x == j) & (y == i)])`,
then either the hard zero for `i == 5` when guarded, or
`tmp / len(df[y == i]) * 100` — which raises `ZeroDivisionError`
(`none`) when no row has forecast code `i`. `x`/`y` are the reported /
forecast columns of the band, and `i` is the loop variable that indexes
the matrix column. -/
def tmpVal (t : List MergedRow) (x y : MergedRow → Nat) (guard : Bool)
    (i j : Nat) : Option ℚ :=
  let tmp : Nat := countRows t (fun r => x r == j && y r == i)
  if guard && i == 5 then some 0
  else
    let den : Nat := countRows t (fun r => y r == i)
    if den == 0 then none
    else some ((tmp : ℚ) / (den : ℚ) * 100)

/-- The matrix entry at reported level `i` (row) and forecast level `j`
(column) for one band and horizon: the store
`df_band_now_plusH[i].loc[j] = tmp` (notebook lines 417-423) puts the
loop's `tmp` at column `i`, row `j`, and the heatmap (lines 436-446)
reads columns as the forecasted rating and rows as the reported rating,
so matrix cell (reported `i`, forecast `j`) is `tmpVal` with the loop
indices swapped. `t` is the merged table belonging to the horizon. -/
def matrixEntry (t : List MergedRow) (b : Band) (h : Horizon)
    (i j : Nat) : Option ℚ :=
  tmpVal t (bandX b) (bandY b) (hardZero b h) j i

/-- `count(reported == i AND forecast == j)` for a band — the numerator
of the anomaly formula. -/
def countXY (t : List MergedRow) (b : Band) (i j : Nat) : Nat :=
  countRows t (fun r => bandX b r == i && bandY b r == j)

/-- `count(reported == i)` for a band — the denominator the spec
prescribes. -/
def countX (t : List MergedRow) (b : Band) (i : Nat) : Nat :=
  countRows t (fun r => bandX b r == i)

/-- `count(forecast == j)` for a band — the denominator the code uses. -/
def countY (t : List MergedRow) (b : Band) (j : Nat) : Nat :=
  countRows t (fun r => bandY b r == j)

/-- Whether the whole nested loop of cell In[152] runs to completion
without a `ZeroDivisionError`, over both merged tables: every cell of
all six matrices is defined. -/
def anomalyDefined (t1 t2 : List MergedRow) : Bool :=
  [Band.alpine, Band.treeline, Band.belowtree].all (fun b =>
    [1, 2, 3, 4, 5].all (fun i =>
      [1, 2, 3, 4, 5].all (fun j =>
        (matrixEntry t1 b .plus1 i j).isSome &&
          (matrixEntry t2 b .plus2 i j).isSome)))

/-! ### Specification-side definitions

These follow the specification text, to be compared with the
definitions above that were translated from the source. -/

/-- Spec-side test on one band rating code: present and nonzero
("treat rating value 0 as missing, drop any row missing any of the
three band ratings"). -/
def goodCode : Option Nat → Bool
  | none => false
  | some k => k != 0

/-- Spec-side row-retention test: all three band rating codes present
and nonzero. -/
def goodRow (r : RawRow) : Bool :=
  goodCode r.alpine_status_code && goodCode r.treeline_status_code &&
    goodCode r.belowtree_status_code

/-! ### Concrete inputs used by counterexamples and witnesses -/

/-- A merged row whose three reported codes are all `a` and whose three
forecast codes are all `b`. -/
def mkRow (a b : Nat) : MergedRow := ⟨a, a, a, b, b, b⟩

/-- A merged table on which the whole anomaly loop succeeds: reported
codes `1,1,2,3,4,1`, forecast codes `1,2,3,4,5,5`. -/
def exT : List MergedRow :=
  [mkRow 1 1, mkRow 1 2, mkRow 2 3, mkRow 3 4, mkRow 4 5, mkRow 1 5]

/-- A one-row merged table: reported code 1, forecast code 1. -/
def exT1 : List MergedRow := [mkRow 1 1]

/-- A merged table with no reported code 2 but every forecast code
present. -/
def exT3 : List MergedRow :=
  [mkRow 1 1, mkRow 1 2, mkRow 1 3, mkRow 1 4, mkRow 1 5]

/-- A merged table with a day whose reported and forecast codes are
both 5, and every forecast code present. -/
def exT5 : List MergedRow :=
  [mkRow 5 5, mkRow 5 1, mkRow 1 2, mkRow 1 3, mkRow 1 4]

/-- A page whose alpine element text lacks the integer part: `int('Low')`
raises `ValueError`. -/
def badPage : Page :=
  ⟨["Low"], ["1 - Low"], ["1 - Low"],
   ["1 - Low", "1 - Low", "1 - Low", "1 - Low", "1 - Low", "1 - Low"], []⟩

/-- A fully populated page carrying the texts of the repository's own
test date (`'1 - Low'` in every slot). -/
def goodPage : Page :=
  ⟨["1 - Low"], ["1 - Low"], ["1 - Low"],
   ["1 - Low", "1 - Low", "1 - Low", "1 - Low", "1 - Low", "1 - Low"],
   ["storm slab"]⟩

/-- A page on which every element list is empty (page not published). -/
def missPage : Page := ⟨[], [], [], [], []⟩

/-- The repository's own test date, 2019-12-01. -/
def d0 : CalDate := ⟨2019, 12, 1⟩

/-- A raw row with all three codes present and nonzero and a missing
problem text. -/
def rawGood : RawRow :=
  ⟨d0, some "Low", some 1, some "Low", some 1, some "Low", some 1, none⟩

/-- A raw row whose treeline code is 0 (treated as missing). -/
def rawZero : RawRow :=
  ⟨d0, some "Low", some 1, some "Low", some 0, some "Low", some 1, some "t"⟩

/-- A placeholder raw row carrying only the date. -/
def rawEmpty : RawRow := ⟨d0, none, none, none, none, none, none, none⟩

/-! ### Helper lemmas -/

/-- Replacing zero by `NaN` leaves a present value exactly when the
original value was present and nonzero. -/
theorem replaceZero_isSome (c : Option Nat) :
    (replaceZero c).isSome = goodCode c := by
  rcases c with _ | (_ | k) <;> rfl

/-- A present nonzero code is untouched by the zero replacement. -/
theorem replaceZero_of_good (c : Option Nat) (h : goodCode c = true) :
    replaceZero c = c := by
  rcases c with _ | (_ | k) <;> first | rfl | exact absurd h (by decide)

/-- The dropna test after the zero replacement is the spec-side
present-and-nonzero test on the original row. -/
theorem hasAllCodes_replaceZeroRow (r : RawRow) :
    hasAllCodes (replaceZeroRow r) = goodRow r := by
  rcases r with ⟨dv, as, ac, ts, tc, bs, bc, pr⟩
  simp [hasAllCodes, replaceZeroRow, goodRow, replaceZero_isSome]

/-- The zero replacement does not change a row whose three codes are
present and nonzero. -/
theorem replaceZeroRow_of_good (r : RawRow) (h : goodRow r = true) :
    replaceZeroRow r = r := by
  rcases r with ⟨dv, as, ac, ts, tc, bs, bc, pr⟩
  simp only [goodRow, Bool.and_eq_true] at h
  simp [replaceZeroRow, replaceZero_of_good _ h.1.1,
    replaceZero_of_good _ h.1.2, replaceZero_of_good _ h.2]

/-- The cleaning filter of notebook lines 100-102 keeps exactly the
rows whose three band rating codes are present and nonzero, unchanged. -/
theorem cleanFilter_eq_filter (t : List RawRow) :
    cleanFilter t = t.filter goodRow := by
  induction t with
  | nil => rfl
  | cons r t ih =>
      simp only [cleanFilter, List.map_cons, List.filter_cons] at *
      rw [hasAllCodes_replaceZeroRow]
      cases h : goodRow r with
      | false => simpa using ih
      | true => simpa [replaceZeroRow_of_good r h] using ih

/-- Counting over a cons. -/
theorem countRows_cons (r : MergedRow) (t : List MergedRow)
    (p : MergedRow → Bool) :
    countRows (r :: t) p = (if p r then 1 else 0) + countRows t p := by
  simp only [countRows, List.filter_cons]
  split <;> simp [Nat.add_comm]

/-- A conjunctive count never exceeds the count of one conjunct. -/
theorem countRows_conj_le (t : List MergedRow) (p q : MergedRow → Bool) :
    countRows t (fun r => p r && q r) ≤ countRows t p := by
  induction t with
  | nil => exact Nat.le_refl 0
  | cons r t ih =>
      rw [countRows_cons, countRows_cons]
      cases hp : p r <;> cases hq : q r <;> simp <;> omega

/-- The joint reported-and-forecast count is at most the reported
count. -/
theorem countXY_le_countX (t : List MergedRow) (b : Band) (i j : Nat) :
    countXY t b i j ≤ countX t b i :=
  countRows_conj_le t (fun r => bandX b r == i) (fun r => bandY b r == j)

/-- A hard-zeroed band/horizon stores 0 in the whole forecast-level-5
column without dividing. -/
theorem matrixEntry_guard (t : List MergedRow) (b : Band) (h : Horizon)
    (i : Nat) (hg : hardZero b h = true) :
    matrixEntry t b h i 5 = some 0 := by
  simp [matrixEntry, tmpVal, hg]

/-- Away from the hard-zeroed cells, the matrix entry at reported level
`i`, forecast level `j` is the joint count over the forecast count,
times 100 — provided some merged day has forecast code `j`. -/
theorem matrixEntry_formula (t : List MergedRow) (b : Band) (h : Horizon)
    (i j : Nat) (hg : hardZero b h = false ∨ j ≠ 5)
    (hden : countY t b j ≠ 0) :
    matrixEntry t b h i j =
      some ((countXY t b i j : ℚ) / (countY t b j : ℚ) * 100) := by
  unfold matrixEntry tmpVal
  have h1 : (hardZero b h && (j == 5)) = false := by
    rcases hg with hg | hg
    · simp [hg]
    · simp [hg]
  rw [h1]
  simp only [Bool.false_eq_true, if_false]
  have h2 : (countRows t (fun r => bandY b r == j) == 0) = false := by
    simpa [countY, Nat.beq_eq_true_eq] using hden
  rw [h2]
  simp only [Bool.false_eq_true, if_false]
  rfl

/-- When every reported code of the table lies in 1..5, the joint
counts at a fixed forecast level sum across reported levels to the
forecast count. -/
theorem sum5_countXY (t : List MergedRow) (b : Band) (j : Nat)
    (hx : ∀ r ∈ t, 1 ≤ bandX b r ∧ bandX b r ≤ 5) :
    countXY t b 1 j + countXY t b 2 j + countXY t b 3 j +
      countXY t b 4 j + countXY t b 5 j = countY t b j := by
  induction t with
  | nil => rfl
  | cons r t ih =>
      have hr := hx r (List.mem_cons_self r t)
      have ih2 := ih (fun r2 hr2 => hx r2 (List.mem_cons_of_mem r hr2))
      simp only [countXY, countY, countRows_cons] at *
      cases hy : (bandY b r == j) with
      | false => simp only [Bool.and_false, if_false]; simpa using ih2
      | true =>
          have hcase : bandX b r = 1 ∨ bandX b r = 2 ∨ bandX b r = 3 ∨
              bandX b r = 4 ∨ bandX b r = 5 := by omega
          rcases hcase with h1 | h1 | h1 | h1 | h1 <;>
            simp only [h1, hy, Bool.and_true] <;> simp <;> omega

/-- A successfully parsed day-of row starts with its date. -/
theorem currentRow_head (d : CalDate) (alp tre bel : String) (r : Row)
    (h : currentRow d alp tre bel = some r) :
    r.head? = some (Entry.date d) := by
  unfold currentRow at h
  simp only [Option.bind_eq_bind, Option.bind_eq_some, Option.pure_def,
    Option.some_inj] at h
  rcases h with ⟨ca, hca, ct, hct, cb, hcb, hr⟩
  rw [← hr]
  rfl

/-- Whatever branch the loop body takes, the day-of row it emits starts
with the date being scraped. -/
theorem scrapeStep_head (pg : Page) (d : CalDate)
    (r0 r1 r2 : Row) (pr : List String)
    (h : scrapeStep pg d = some (r0, r1, r2, pr)) :
    r0.head? = some (Entry.date d) := by
  unfold scrapeStep at h
  by_cases hm : missingElements pg = true
  · rw [if_pos hm] at h
    simp only [Option.some_inj, Prod.mk.injEq] at h
    rw [← h.1]
    rfl
  · rw [if_neg hm] at h
    simp only [Option.bind_eq_bind, Option.bind_eq_some, Option.pure_def,
      Option.some_inj, Prod.mk.injEq] at h
    rcases h with ⟨cur, hcur, f0, h0, f1, h1, f2, h2, f3, h3, f4, h4, f5,
      h5, p1, hp1, p2, hp2, hr0, hr1, hr2, hpr⟩
    rw [← hr0]
    exact currentRow_head d _ _ _ cur hcur

/-- Every day-of row a completed scrape run emits starts with one of
the input dates. -/
theorem scrapeLists_dates (fetch : CalDate → Page) (dates : List CalDate)
    (l0 : List Row) (l1 : List Row) (l2 : List Row)
    (lp : List (List String))
    (h : scrapeLists fetch dates = some (l0, l1, l2, lp)) :
    ∀ r ∈ l0, ∃ d, d ∈ dates ∧ r.head? = some (Entry.date d) := by
  induction dates generalizing l0 l1 l2 lp with
  | nil =>
      simp only [scrapeLists, Option.some_inj, Prod.mk.injEq] at h
      rw [← h.1]
      intro r hr
      exact absurd hr (List.not_mem_nil r)
  | cons d rest ih =>
      unfold scrapeLists at h
      simp only [Option.bind_eq_bind, Option.bind_eq_some, Option.pure_def,
        Option.some_inj, Prod.mk.injEq] at h
      rcases h with ⟨⟨r0, r1, r2, pr⟩, hstep, ⟨m0, m1, m2, mp⟩, hrest,
        h0, h1, h2, hp⟩
      intro r hr
      rw [← h0] at hr
      rcases List.mem_cons.mp hr with hr | hr
      · exact ⟨d, List.mem_cons_self d rest,
          hr ▸ scrapeStep_head (fetch d) d r0 r1 r2 pr hstep⟩
      · rcases ih m0 m1 m2 mp hrest r hr with ⟨d2, hd2, hhead⟩
        exact ⟨d2, List.mem_cons_of_mem d hd2, hhead⟩

/-! ### Claim C4 -/

/-- C4, counterexample: on a value string of the form
`"<label> - <k>"` — here `"Low - 1"` — the scrape does not store the
part before the separator as the label with the integer after it as
the code; it stores the part after the separator (`"1"`) as the label
and raises `ValueError` trying to read the part before it (`"Low"`) as
an integer, so no record is emitted at all. -/
theorem C4_counterexample :
    statusLabel "Low - 1" = "1" ∧ statusCode "Low - 1" = none ∧
    currentRow d0 "Low - 1" "Low - 1" "Low - 1" = none := by decide

/-- C4, amended: the scraped value strings have the form
`"<k> - <label>"`; the scrape splits at `" - "` and stores the part
after the separator as the status label and the integer before the
separator as the ordinal status code, verified on all five rating
strings that occur on the archive pages and on a full emitted record. -/
theorem C4_amended :
    (statusLabel "1 - Low" = "Low" ∧ statusCode "1 - Low" = some 1) ∧
    (statusLabel "2 - Moderate" = "Moderate" ∧
      statusCode "2 - Moderate" = some 2) ∧
    (statusLabel "3 - Considerable" = "Considerable" ∧
      statusCode "3 - Considerable" = some 3) ∧
    (statusLabel "4 - High" = "High" ∧ statusCode "4 - High" = some 4) ∧
    (statusLabel "5 - Extreme" = "Extreme" ∧
      statusCode "5 - Extreme" = some 5) ∧
    currentRow d0 "1 - Low" "2 - Moderate" "3 - Considerable" =
      some [Entry.date d0, Entry.str "Low", Entry.int 1,
        Entry.str "Moderate", Entry.int 2,
        Entry.str "Considerable", Entry.int 3] := by decide

/-! ### Claim C6 -/

/-- C6: when any expected page element is absent for a date, the loop
body emits a placeholder record containing only the date into each of
the three condition sequences (and an empty problem list), raises no
exception, and the run continues with the remaining dates unchanged —
no retry of that date. -/
theorem C6_missing_placeholder (fetch : CalDate → Page) (d : CalDate)
    (rest : List CalDate) (l0 l1 l2 : List Row) (lp : List (List String))
    (hmiss : missingElements (fetch d) = true)
    (hrest : scrapeLists fetch rest = some (l0, l1, l2, lp)) :
    scrapeStep (fetch d) d =
      some ([Entry.date d], [Entry.date (nextDay d)],
        [Entry.date (nextDay (nextDay d))], []) ∧
    scrapeLists fetch (d :: rest) =
      some ([Entry.date d] :: l0, [Entry.date (nextDay d)] :: l1,
        [Entry.date (nextDay (nextDay d))] :: l2, [] :: lp) := by
  have hstep : scrapeStep (fetch d) d =
      some ([Entry.date d], [Entry.date (nextDay d)],
        [Entry.date (nextDay (nextDay d))], []) := by
    unfold scrapeStep
    rw [if_pos hmiss]
  refine ⟨hstep, ?_⟩
  unfold scrapeLists
  rw [hstep, hrest]
  rfl

/-- C6, witness at a page with every element list empty and a
singleton date list. -/
theorem C6_witness :
    scrapeStep missPage d0 =
      some ([Entry.date d0], [Entry.date (nextDay d0)],
        [Entry.date (nextDay (nextDay d0))], []) ∧
    scrapeLists (fun _ => missPage) [d0] =
      some ([[Entry.date d0]], [[Entry.date (nextDay d0)]],
        [[Entry.date (nextDay (nextDay d0))]], [[]]) :=
  C6_missing_placeholder (fun _ => missPage) d0 [] [] [] [] []
    (by decide) (by rfl)

/-! ### Claim C7 -/

/-- C7: the cleaning operation keeps exactly the rows whose three band
rating codes are present and nonzero (a value 0 counts as missing),
alters no rating value of a retained row, and in the retained day-of
rows replaces a missing problem text by the sentinel string
`"No Text"`, so that no retained day-of row lacks a problem text. -/
theorem C7_cleaning (t : List RawRow) :
    cleanFilter t = t.filter goodRow ∧
    cleanCurrent t = (t.filter goodRow).map fillProblems ∧
    (∀ r ∈ cleanCurrent t, r.problems.isSome = true) := by
  refine ⟨cleanFilter_eq_filter t, ?_, ?_⟩
  · unfold cleanCurrent
    rw [cleanFilter_eq_filter]
  · intro r hr
    rcases List.mem_map.mp hr with ⟨r2, hr2, hfill⟩
    rw [← hfill]
    rfl

/-- C7, witness on a three-row table holding a clean row, a row with a
zero code and a placeholder row. -/
theorem C7_witness :
    cleanFilter [rawGood, rawZero, rawEmpty] =
      List.filter goodRow [rawGood, rawZero, rawEmpty] ∧
    cleanCurrent [rawGood, rawZero, rawEmpty] =
      (List.filter goodRow [rawGood, rawZero, rawEmpty]).map fillProblems ∧
    (∀ r ∈ cleanCurrent [rawGood, rawZero, rawEmpty],
      r.problems.isSome = true) :=
  C7_cleaning [rawGood, rawZero, rawEmpty]

/-! ### Claim C8 -/

/-- C8: the cleaning filter is idempotent — on a table in which every
row already has its three band rating codes present and nonzero, the
filter returns the very same table, with the same rows and row count. -/
theorem C8_idempotent (t : List RawRow) (h : ∀ r ∈ t, goodRow r = true) :
    cleanFilter t = t ∧ (cleanFilter t).length = t.length := by
  have h1 : cleanFilter t = t := by
    rw [cleanFilter_eq_filter]
    exact List.filter_eq_self.mpr h
  exact ⟨h1, by rw [h1]⟩

/-- C8, witness on a one-row already-clean table. -/
theorem C8_witness :
    cleanFilter [rawGood] = [rawGood] ∧
    (cleanFilter [rawGood]).length = [rawGood].length :=
  C8_idempotent [rawGood] (by decide)

/-! ### Claim C9 -/

/-- C9, counterexample: on a run whose first page carries the malformed
value text `"Low"` (no integer part), parsing raises, the run
terminates early with no result, and `driver.quit()` is never reached —
the browser process is not released. -/
theorem C9_counterexample :
    statusCode "Low" = none ∧
    scrapeRun (fun _ => badPage) [d0] = ⟨none, false⟩ := by decide

/-- C9, amended: the browser process is released exactly when the
scrape loop over a nonempty date list completes without an exception; a
run that terminates early because a scraped value string is malformed
skips the release. -/
theorem C9_amended (fetch : CalDate → Page) (dates : List CalDate)
    (hne : dates ≠ []) :
    (scrapeRun fetch dates).driverReleased = true ↔
      (scrapeLists fetch dates).isSome = true := by
  cases dates with
  | nil => exact absurd rfl hne
  | cons d rest =>
      unfold scrapeRun
      cases hsl : scrapeLists fetch (d :: rest) with
      | none => simp
      | some r => simp

/-- C9, witness on a run over one date with a fully populated page. -/
theorem C9_witness :
    (scrapeRun (fun _ => goodPage) [d0]).driverReleased = true ↔
      (scrapeLists (fun _ => goodPage) [d0]).isSome = true :=
  C9_amended (fun _ => goodPage) [d0] (by decide)

/-! ### Claim C10 -/

/-- C10: the date sequence passed to the scraper is the configured
range filtered to the months `[1, 2, 3, 4, 11, 12]` — i.e. November
through April — so every date in it (and hence the date of every
day-of row a completed scrape emits) has its calendar month in that
set, and no date of a month May through October survives the filter. -/
theorem C10_month_filter (dateRange : List CalDate) (d : CalDate)
    (fetch : CalDate → Page) (l0 l1 l2 : List Row)
    (lp : List (List String))
    (hd : d ∈ dates_to_scrape dateRange)
    (hrun : scrapeLists fetch (dates_to_scrape dateRange) =
      some (l0, l1, l2, lp)) :
    (d ∈ dateRange ∧ d.month ∈ months_to_scrape) ∧
    ¬(5 ≤ d.month ∧ d.month ≤ 10) ∧
    (∀ r ∈ l0, ∃ d2, d2.month ∈ months_to_scrape ∧
      r.head? = some (Entry.date d2)) := by
  have hmem : ∀ d2 : CalDate, d2 ∈ dates_to_scrape dateRange →
      d2 ∈ dateRange ∧ d2.month ∈ months_to_scrape := by
    intro d2 hd2
    unfold dates_to_scrape at hd2
    have h2 := List.mem_filter.mp hd2
    refine ⟨h2.1, ?_⟩
    simpa using h2.2
  have hme := hmem d hd
  refine ⟨hme, ?_, ?_⟩
  · have h3 : d.month ∈ months_to_scrape := hme.2
    simp only [months_to_scrape, List.mem_cons, List.not_mem_nil,
      or_false] at h3
    rcases h3 with h | h | h | h | h | h <;> omega
  · intro r hr
    rcases scrapeLists_dates fetch (dates_to_scrape dateRange)
      l0 l1 l2 lp hrun r hr with ⟨d2, hd2, hhead⟩
    exact ⟨d2, (hmem d2 hd2).2, hhead⟩

/-- C10, witness: a July date is excluded from a two-date range while a
December date passes and is the date of the only day-of row emitted. -/
theorem C10_witness :
    (CalDate.mk 2019 12 1 ∈ [CalDate.mk 2019 12 1, CalDate.mk 2019 7 15] ∧
      (CalDate.mk 2019 12 1).month ∈ months_to_scrape) ∧
    ¬(5 ≤ (CalDate.mk 2019 12 1).month ∧ (CalDate.mk 2019 12 1).month ≤ 10) ∧
    (∀ r ∈ [[Entry.date (CalDate.mk 2019 12 1)]],
      ∃ d2, d2.month ∈ months_to_scrape ∧
        r.head? = some (Entry.date d2)) :=
  C10_month_filter [CalDate.mk 2019 12 1, CalDate.mk 2019 7 15]
    (CalDate.mk 2019 12 1) (fun _ => missPage)
    [[Entry.date (CalDate.mk 2019 12 1)]]
    [[Entry.date (CalDate.mk 2019 12 2)]]
    [[Entry.date (CalDate.mk 2019 12 3)]] [[]] (by decide) (by rfl)

/-! ### Claim C1 -/

/-- C1, counterexample: on a merged table on which the whole loop
succeeds and with reported level 1 observed, the alpine one-day cell at
(reported 1, forecast 1) is not
`count(reported = 1 ∧ forecast = 1) / count(reported = 1) * 100`; it is
that joint count divided by `count(forecast = 1)`, times 100 — the
percentage is conditioned on the forecast rating, not the reported
one. -/
theorem C1_counterexample :
    anomalyDefined exT exT = true ∧
    countX exT .alpine 1 ≠ 0 ∧
    matrixEntry exT .alpine .plus1 1 1 ≠
      some ((countXY exT .alpine 1 1 : ℚ) /
        (countX exT .alpine 1 : ℚ) * 100) ∧
    matrixEntry exT .alpine .plus1 1 1 =
      some ((countXY exT .alpine 1 1 : ℚ) /
        (countY exT .alpine 1 : ℚ) * 100) := by
  have hxy : countXY exT Band.alpine 1 1 = 1 := by decide
  have hyc : countY exT Band.alpine 1 = 1 := by decide
  have hxc : countX exT Band.alpine 1 = 3 := by decide
  have hf := matrixEntry_formula exT Band.alpine Horizon.plus1 1 1
    (Or.inl rfl) (by decide)
  refine ⟨by decide, by decide, ?_, hf⟩
  rw [hf, hxy, hyc, hxc]
  norm_num

/-- C1, amended: for every band, horizon and levels `i`, `j`, outside
the hard-zeroed cells the anomaly cell at (reported `i`, forecast `j`)
equals `count(reported = i ∧ forecast = j) / count(forecast = j) * 100`
— conditioned on the forecast rating `j` — provided that denominator is
nonzero; the hard-zeroed cells hold 0. -/
theorem C1_amended (t : List MergedRow) (b : Band) (hz : Horizon)
    (i j : Nat)
    (hcase : (hardZero b hz = true ∧ j = 5) ∨ countY t b j ≠ 0) :
    matrixEntry t b hz i j =
      if hardZero b hz = true ∧ j = 5 then some 0
      else some ((countXY t b i j : ℚ) / (countY t b j : ℚ) * 100) := by
  by_cases hc : hardZero b hz = true ∧ j = 5
  · rw [if_pos hc]
    rcases hc with ⟨hg, rfl⟩
    exact matrixEntry_guard t b hz i hg
  · rw [if_neg hc]
    have hden : countY t b j ≠ 0 := by
      rcases hcase with hcase | hcase
      · exact absurd hcase hc
      · exact hcase
    have hg : hardZero b hz = false ∨ j ≠ 5 := by
      by_cases h5 : j = 5
      · left
        cases hhz : hardZero b hz
        · rfl
        · exact absurd ⟨hhz, h5⟩ hc
      · right
        exact h5
    exact matrixEntry_formula t b hz i j hg hden

/-- C1, witness at the alpine one-day cell (1, 1) of a concrete table. -/
theorem C1_witness :
    matrixEntry exT Band.alpine Horizon.plus1 1 1 =
      if hardZero Band.alpine Horizon.plus1 = true ∧ (1 : Nat) = 5
      then some 0
      else some ((countXY exT Band.alpine 1 1 : ℚ) /
        (countY exT Band.alpine 1 : ℚ) * 100) :=
  C1_amended exT Band.alpine Horizon.plus1 1 1 (Or.inr (by decide))

/-! ### Claim C2 -/

/-- C2, counterexample: on a merged table on which the whole loop
succeeds, with three days of reported level 1, the reported-level-1 row
of the alpine one-day matrix sums across forecast levels to 250, not
100 (and 250 is not within any floating-point tolerance of 100). -/
theorem C2_counterexample :
    anomalyDefined exT exT = true ∧
    countX exT .alpine 1 ≠ 0 ∧
    (([1, 2, 3, 4, 5] : List Nat).map
      (fun j => (matrixEntry exT .alpine .plus1 1 j).getD 0)).sum =
        250 ∧
    (250 : ℚ) ≠ 100 := by
  have v1 : matrixEntry exT Band.alpine Horizon.plus1 1 1 = some 100 := by
    rw [matrixEntry_formula exT Band.alpine Horizon.plus1 1 1
      (Or.inl rfl) (by decide)]
    have h1 : countXY exT Band.alpine 1 1 = 1 := by decide
    have h2 : countY exT Band.alpine 1 = 1 := by decide
    rw [h1, h2]
    norm_num
  have v2 : matrixEntry exT Band.alpine Horizon.plus1 1 2 = some 100 := by
    rw [matrixEntry_formula exT Band.alpine Horizon.plus1 1 2
      (Or.inl rfl) (by decide)]
    have h1 : countXY exT Band.alpine 1 2 = 1 := by decide
    have h2 : countY exT Band.alpine 2 = 1 := by decide
    rw [h1, h2]
    norm_num
  have v3 : matrixEntry exT Band.alpine Horizon.plus1 1 3 = some 0 := by
    rw [matrixEntry_formula exT Band.alpine Horizon.plus1 1 3
      (Or.inl rfl) (by decide)]
    have h1 : countXY exT Band.alpine 1 3 = 0 := by decide
    rw [h1]
    norm_num
  have v4 : matrixEntry exT Band.alpine Horizon.plus1 1 4 = some 0 := by
    rw [matrixEntry_formula exT Band.alpine Horizon.plus1 1 4
      (Or.inl rfl) (by decide)]
    have h1 : countXY exT Band.alpine 1 4 = 0 := by decide
    rw [h1]
    norm_num
  have v5 : matrixEntry exT Band.alpine Horizon.plus1 1 5 = some 50 := by
    rw [matrixEntry_formula exT Band.alpine Horizon.plus1 1 5
      (Or.inl rfl) (by decide)]
    have h1 : countXY exT Band.alpine 1 5 = 1 := by decide
    have h2 : countY exT Band.alpine 5 = 2 := by decide
    rw [h1, h2]
    norm_num
  refine ⟨by decide, by decide, ?_, by norm_num⟩
  simp only [List.map_cons, List.map_nil, List.sum_cons, List.sum_nil,
    v1, v2, v3, v4, v5, Option.getD_some, add_zero]
  norm_num

/-- C2, amended: it is the columns, not the rows, that sum to 100: for
every band and horizon, and every forecast level `j` with at least one
merged day whose forecast equals `j` and which is not hard-zeroed, the
sum over reported levels `i` of cell (`i`, `j`) equals exactly 100
(provided every reported code of the table lies in 1..5). -/
theorem C2_amended (t : List MergedRow) (b : Band) (hz : Horizon)
    (j : Nat)
    (hx : ∀ r ∈ t, 1 ≤ bandX b r ∧ bandX b r ≤ 5)
    (hg : hardZero b hz = false ∨ j ≠ 5)
    (hden : countY t b j ≠ 0) :
    (([1, 2, 3, 4, 5] : List Nat).map
      (fun i => (matrixEntry t b hz i j).getD 0)).sum = 100 := by
  have e1 := matrixEntry_formula t b hz 1 j hg hden
  have e2 := matrixEntry_formula t b hz 2 j hg hden
  have e3 := matrixEntry_formula t b hz 3 j hg hden
  have e4 := matrixEntry_formula t b hz 4 j hg hden
  have e5 := matrixEntry_formula t b hz 5 j hg hden
  simp only [List.map_cons, List.map_nil, List.sum_cons, List.sum_nil,
    e1, e2, e3, e4, e5, Option.getD_some, add_zero]
  have hsum := sum5_countXY t b j hx
  have hdq : (countY t b j : ℚ) ≠ 0 := Nat.cast_ne_zero.mpr hden
  have hcast : (countXY t b 1 j : ℚ) + (countXY t b 2 j : ℚ) +
      (countXY t b 3 j : ℚ) + (countXY t b 4 j : ℚ) +
      (countXY t b 5 j : ℚ) = (countY t b j : ℚ) := by
    exact_mod_cast congrArg (Nat.cast : Nat → ℚ) hsum
  field_simp
  linarith [hcast]

/-- C2, witness at the alpine one-day forecast-level-1 column of a
concrete table. -/
theorem C2_witness :
    (([1, 2, 3, 4, 5] : List Nat).map
      (fun i =>
        (matrixEntry exT Band.alpine Horizon.plus1 i 1).getD 0)).sum =
      100 :=
  C2_amended exT Band.alpine Horizon.plus1 1 (by decide) (by decide)
    (by decide)

/-! ### Claim C3 -/

/-- C3, counterexample: on a one-row merged table with no day of
reported level 2, the anomaly computation raises a division error — the
(2, 2) cell is undefined rather than zero or a sentinel — because the
denominator it divides by is the count at forecast level 2, which is
also zero here. -/
theorem C3_counterexample :
    countX exT1 .alpine 2 = 0 ∧
    matrixEntry exT1 .alpine .plus1 2 2 = none := by decide

/-- C3, amended: the absence of merged days at a reported level `i`
never itself causes a division error: whenever every non-hard-zeroed
forecast level has at least one merged day, the computation completes
and every cell of row `i` equals 0. (A forecast level with zero days
does raise, as the counterexample shows.) -/
theorem C3_amended (t : List MergedRow) (b : Band) (hz : Horizon)
    (i : Nat) (hx : countX t b i = 0)
    (hden : ∀ j ∈ ([1, 2, 3, 4, 5] : List Nat),
      (hardZero b hz = false ∨ j ≠ 5) → countY t b j ≠ 0) :
    ∀ j ∈ ([1, 2, 3, 4, 5] : List Nat),
      matrixEntry t b hz i j = some 0 := by
  intro j hj
  by_cases hc : hardZero b hz = true ∧ j = 5
  · rcases hc with ⟨hg, rfl⟩
    exact matrixEntry_guard t b hz i hg
  · have hgor : hardZero b hz = false ∨ j ≠ 5 := by
      by_cases h5 : j = 5
      · left
        cases hhz : hardZero b hz
        · rfl
        · exact absurd ⟨hhz, h5⟩ hc
      · right
        exact h5
    have hd := hden j hj hgor
    rw [matrixEntry_formula t b hz i j hgor hd]
    have h0 : countXY t b i j = 0 :=
      Nat.le_zero.mp (hx ▸ countXY_le_countX t b i j)
    rw [h0]
    norm_num

/-- C3, witness: a table with no reported level 2 but every forecast
level present gives an all-zero row 2 in the alpine one-day matrix. -/
theorem C3_witness :
    countX exT3 Band.alpine 2 = 0 ∧
    ∀ j ∈ ([1, 2, 3, 4, 5] : List Nat),
      matrixEntry exT3 Band.alpine Horizon.plus1 2 j = some 0 :=
  ⟨by decide,
    C3_amended exT3 Band.alpine Horizon.plus1 2 (by decide) (by decide)⟩

/-! ### Claim C5 -/

/-- C5, counterexample: the hard zero is not the reported-level-5 row
of the two-day matrices only. On a concrete table the below-treeline
ONE-day matrix holds 0 at (5, 5) although the count formula would give
100 there, and the alpine two-day matrix holds 100 — not 0 — at
(reported 5, forecast 1). -/
theorem C5_counterexample :
    anomalyDefined exT5 exT5 = true ∧
    countY exT5 .belowtree 5 ≠ 0 ∧
    matrixEntry exT5 .belowtree .plus1 5 5 = some 0 ∧
    (countXY exT5 .belowtree 5 5 : ℚ) /
      (countY exT5 .belowtree 5 : ℚ) * 100 = 100 ∧
    matrixEntry exT5 .alpine .plus2 5 1 = some 100 := by
  refine ⟨by decide, by decide, by decide, ?_, ?_⟩
  · have h1 : countXY exT5 Band.belowtree 5 5 = 1 := by decide
    have h2 : countY exT5 Band.belowtree 5 = 1 := by decide
    rw [h1, h2]
    norm_num
  · rw [matrixEntry_formula exT5 Band.alpine Horizon.plus2 5 1
      (Or.inr (by decide)) (by decide)]
    have h1 : countXY exT5 Band.alpine 5 1 = 1 := by decide
    have h2 : countY exT5 Band.alpine 1 = 1 := by decide
    rw [h1, h2]
    norm_num

/-- C5, amended: the hard-zero convention applies to the
forecast-level-5 column: for every band the forecast-level-5 column of
the two-day matrix is all 0, and additionally the forecast-level-5
column of the below-treeline ONE-day matrix is all 0; the alpine and
treeline one-day matrices are computed by the count formula
(conditioned on the forecast count) at every cell. -/
theorem C5_amended (t : List MergedRow) (b : Band) (i j : Nat)
    (hb : b = Band.alpine ∨ b = Band.treeline)
    (hden : countY t b j ≠ 0) :
    matrixEntry t b .plus2 i 5 = some 0 ∧
    matrixEntry t Band.belowtree .plus2 i 5 = some 0 ∧
    matrixEntry t Band.belowtree .plus1 i 5 = some 0 ∧
    matrixEntry t b .plus1 i j =
      some ((countXY t b i j : ℚ) / (countY t b j : ℚ) * 100) := by
  refine ⟨?_, ?_, ?_, ?_⟩
  · refine matrixEntry_guard t b .plus2 i ?_
    rcases hb with rfl | rfl <;> rfl
  · exact matrixEntry_guard t Band.belowtree .plus2 i rfl
  · exact matrixEntry_guard t Band.belowtree .plus1 i rfl
  · refine matrixEntry_formula t b .plus1 i j ?_ hden
    left
    rcases hb with rfl | rfl <;> rfl

/-- C5, witness at reported level 5 of a concrete table. -/
theorem C5_witness :
    matrixEntry exT5 Band.alpine Horizon.plus2 5 5 = some 0 ∧
    matrixEntry exT5 Band.belowtree Horizon.plus2 5 5 = some 0 ∧
    matrixEntry exT5 Band.belowtree Horizon.plus1 5 5 = some 0 ∧
    matrixEntry exT5 Band.alpine Horizon.plus1 5 1 =
      some ((countXY exT5 Band.alpine 5 1 : ℚ) /
        (countY exT5 Band.alpine 1 : ℚ) * 100) :=
  C5_amended exT5 Band.alpine 5 1 (Or.inl rfl) (by decide)

end AvyCan
